import Mathlib

/-!
Verification of the configuration-validation and client-construction layer of
the `xaplibrary-sequelizefactory` repository (`src/configuration/model.js` and
the factory module).  JavaScript values flowing through the validator are
modelled by `JSValue`; the `xrtlibrary-traverse` combinators used by the code
(`sub`, `optionalSub`, `notNull`, `typeOf(Object)`, `boolean`, `integer`,
`string`) are modelled over `JSValue` with `Except String`; each configuration
builder (`Default` / `From`) is translated statement-by-statement from the
source, with the bundled default document passed explicitly as the value that
`ReadDefaultRawConfiguration` would return.
-/

/-- A JavaScript/JSON value as handled by the configuration code: `null`,
booleans, integer numbers, strings and plain objects (ordered key/value
lists). -/
inductive JSValue where
  | null : JSValue
  | bool : Bool → JSValue
  | int : Int → JSValue
  | str : String → JSValue
  | obj : List (String × JSValue) → JSValue
deriving Repr

/-- First value bound to `name` in an object's field list (JavaScript
`name in obj` / `obj[name]`). -/
def jsLookup : List (String × JSValue) → String → Option JSValue
  | [], _ => none
  | (k, v) :: rest, name => if k = name then some v else jsLookup rest name

/-- Whether a value is object-shaped (passes `typeOf(Object)` when not null). -/
def isObjectShaped : JSValue → Bool
  | .obj _ => true
  | _ => false

/-- Key list of an object value. -/
def jsKeys : JSValue → List String
  | .obj fs => fs.map Prod.fst
  | _ => []

/-- Member access on an object value. -/
def jsGet : JSValue → String → Option JSValue
  | .obj fs, name => jsLookup fs name
  | _, _ => none

namespace XRTLibTraverse

/-- Model of `Traverse.notNull()`: fails when the wrapped value is null. -/
def notNull (v : JSValue) : Except String JSValue :=
  match v with
  | .null => .error "Value should not be null."
  | v => .ok v

/-- Model of `Traverse.typeOf(Object)`: a null value passes (type assertions
are skipped on null); a non-null value must be an object. -/
def typeOfObject (v : JSValue) : Except String JSValue :=
  match v with
  | .null => .ok .null
  | .obj fs => .ok (.obj fs)
  | _ => .error "Value type should be object."

/-- Model of `Traverse.boolean()`: null passes, otherwise the value must be a
boolean. -/
def boolean (v : JSValue) : Except String JSValue :=
  match v with
  | .null => .ok .null
  | .bool b => .ok (.bool b)
  | _ => .error "Value type should be boolean."

/-- Model of `Traverse.integer()`: null passes, otherwise the value must be an
integer number. -/
def integer (v : JSValue) : Except String JSValue :=
  match v with
  | .null => .ok .null
  | .int n => .ok (.int n)
  | _ => .error "Value type should be integer."

/-- Model of `Traverse.string()`: null passes, otherwise the value must be a
string. -/
def string (v : JSValue) : Except String JSValue :=
  match v with
  | .null => .ok .null
  | .str s => .ok (.str s)
  | _ => .error "Value type should be string."

/-- Model of `Traverse.sub(name)`: the wrapped value must be an object and the
key must exist; the member value (null included) is returned. -/
def sub (v : JSValue) (name : String) : Except String JSValue :=
  match v with
  | .obj fs =>
    match jsLookup fs name with
    | some w => .ok w
    | none => .error "Sub path is not existed."
  | _ => .error "Value type should be object."

/-- Model of `Traverse.optionalSub(name, defaultValue)`: the wrapped value must
be an object; when the key exists its value (null included) is returned
unchanged, and only when the key is absent is the default value substituted. -/
def optionalSub (v : JSValue) (name : String) (dflt : JSValue) : Except String JSValue :=
  match v with
  | .obj fs =>
    match jsLookup fs name with
    | some w => .ok w
    | none => .ok dflt
  | _ => .error "Value type should be object."

end XRTLibTraverse

/-- The error class every builder failure is wrapped into
(`ModelConfigurationError` in `src/configuration/model.js`). -/
structure ModelConfigurationError where
  message : String
deriving Repr

/-- Whether an `Except` computation failed. -/
def isError {ε α : Type} : Except ε α → Bool
  | .error _ => true
  | .ok _ => false

/-- Modelled from the spec: the bundled default-configuration document
`model.default.json` is read by `ReadDefaultRawConfiguration` but is not under
`src/`.  Its required keys are those of spec section 6 (`host, port, username,
password, database, dialect, protocol, sync.force, sync.alter, logging,
omit-null, pool.max, pool.min, pool.idle, pool.acquire, pool.evict,
transaction.type, transaction.isolation-level, retry.max, operators-aliases`)
and its values come from the repository's configuration table (host
`localhost`, port 3306, username/password/database null, dialect `mysql`,
protocol `tcp`, sync flags false, logging false, pool 5/0/10000/60000/1000,
transaction `DEFERRED`/`READ_COMMITTED`, retry.max 4); the table gives no
values for `omit-null` and `operators-aliases`, for which `false` and `null`
are used. -/
def defaultRawConfiguration : JSValue :=
  .obj [
    ("host", .str "localhost"),
    ("port", .int 3306),
    ("username", .null),
    ("password", .null),
    ("database", .null),
    ("dialect", .str "mysql"),
    ("protocol", .str "tcp"),
    ("sync", .obj [("force", .bool false), ("alter", .bool false)]),
    ("logging", .bool false),
    ("omit-null", .bool false),
    ("pool", .obj [
      ("max", .int 5),
      ("min", .int 0),
      ("idle", .int 10000),
      ("acquire", .int 60000),
      ("evict", .int 1000)]),
    ("transaction", .obj [
      ("type", .str "DEFERRED"),
      ("isolation-level", .str "READ_COMMITTED")]),
    ("retry", .obj [("max", .int 4)]),
    ("operators-aliases", .null)]

/-- The model sync configuration value object (constructor
`ModelSyncConfiguration(force, alter)`); the constructor stores the raw values
unchecked. -/
structure ModelSyncConfiguration where
  force : JSValue
  alter : JSValue
deriving Repr

/-- `ModelSyncConfiguration.prototype.toObject`. -/
def ModelSyncConfiguration.toObject (c : ModelSyncConfiguration) : JSValue :=
  .obj [("force", c.force), ("alter", c.alter)]

/-- `ModelSyncConfiguration.Default`, with the default document `cfg` passed
in place of the `ReadDefaultRawConfiguration()` call. -/
def ModelSyncConfiguration.Default (cfg : JSValue) :
    Except ModelConfigurationError ModelSyncConfiguration :=
  match (do
      let root ← XRTLibTraverse.sub cfg "sync"
      let root ← XRTLibTraverse.notNull root
      let root ← XRTLibTraverse.typeOfObject root
      let force ← XRTLibTraverse.boolean (← XRTLibTraverse.notNull
        (← XRTLibTraverse.sub root "force"))
      let alter ← XRTLibTraverse.boolean (← XRTLibTraverse.notNull
        (← XRTLibTraverse.sub root "alter"))
      pure (force, alter) : Except String (JSValue × JSValue)) with
  | .error e =>
    .error ⟨"Load default model sync configuration error. (error = \"" ++ e ++ "\")"⟩
  | .ok (force, alter) => .ok ⟨force, alter⟩

/-- `ModelSyncConfiguration.From(cfg)`: loads the default configuration (the
call sits outside the `try` block, so a default-configuration failure
propagates unwrapped), then merges `cfg` over it. -/
def ModelSyncConfiguration.From (doc : JSValue) (cfg : JSValue) :
    Except ModelConfigurationError ModelSyncConfiguration := do
  let dcfg ← ModelSyncConfiguration.Default doc
  match (do
      let root ← XRTLibTraverse.notNull cfg
      let root ← XRTLibTraverse.typeOfObject root
      let force ← XRTLibTraverse.boolean (← XRTLibTraverse.notNull
        (← XRTLibTraverse.optionalSub root "force" dcfg.force))
      let alter ← XRTLibTraverse.boolean (← XRTLibTraverse.notNull
        (← XRTLibTraverse.optionalSub root "alter" dcfg.alter))
      pure (force, alter) : Except String (JSValue × JSValue)) with
  | .error e =>
    .error ⟨"Load model sync configuration error. (error = \"" ++ e ++ "\")"⟩
  | .ok (force, alter) => .ok ⟨force, alter⟩

/-- The model pool configuration value object (constructor
`ModelPoolConfiguration(max, min, idle, acquire, evict)`). -/
structure ModelPoolConfiguration where
  max : JSValue
  min : JSValue
  idle : JSValue
  acquire : JSValue
  evict : JSValue
deriving Repr

/-- `ModelPoolConfiguration.prototype.toObject`. -/
def ModelPoolConfiguration.toObject (c : ModelPoolConfiguration) : JSValue :=
  .obj [("max", c.max), ("min", c.min), ("idle", c.idle),
        ("acquire", c.acquire), ("evict", c.evict)]

/-- `ModelPoolConfiguration.Default`, with the default document `cfg` passed
in place of the `ReadDefaultRawConfiguration()` call. -/
def ModelPoolConfiguration.Default (cfg : JSValue) :
    Except ModelConfigurationError ModelPoolConfiguration :=
  match (do
      let root ← XRTLibTraverse.sub cfg "pool"
      let root ← XRTLibTraverse.notNull root
      let root ← XRTLibTraverse.typeOfObject root
      let max ← XRTLibTraverse.integer (← XRTLibTraverse.notNull
        (← XRTLibTraverse.sub root "max"))
      let min ← XRTLibTraverse.integer (← XRTLibTraverse.notNull
        (← XRTLibTraverse.sub root "min"))
      let idle ← XRTLibTraverse.integer (← XRTLibTraverse.notNull
        (← XRTLibTraverse.sub root "idle"))
      let acquire ← XRTLibTraverse.integer (← XRTLibTraverse.notNull
        (← XRTLibTraverse.sub root "acquire"))
      let evict ← XRTLibTraverse.integer (← XRTLibTraverse.notNull
        (← XRTLibTraverse.sub root "evict"))
      pure (max, min, idle, acquire, evict) :
        Except String (JSValue × JSValue × JSValue × JSValue × JSValue)) with
  | .error e =>
    .error ⟨"Load default model pool configuration error. (error = \"" ++ e ++ "\")"⟩
  | .ok (max, min, idle, acquire, evict) => .ok ⟨max, min, idle, acquire, evict⟩

/-- `ModelPoolConfiguration.From(cfg)`: loads the default configuration (the
call sits outside the `try` block, so a default-configuration failure
propagates unwrapped), then merges `cfg` over it. -/
def ModelPoolConfiguration.From (doc : JSValue) (cfg : JSValue) :
    Except ModelConfigurationError ModelPoolConfiguration := do
  let dcfg ← ModelPoolConfiguration.Default doc
  match (do
      let root ← XRTLibTraverse.notNull cfg
      let root ← XRTLibTraverse.typeOfObject root
      let max ← XRTLibTraverse.integer (← XRTLibTraverse.notNull
        (← XRTLibTraverse.optionalSub root "max" dcfg.max))
      let min ← XRTLibTraverse.integer (← XRTLibTraverse.notNull
        (← XRTLibTraverse.optionalSub root "min" dcfg.min))
      let idle ← XRTLibTraverse.integer (← XRTLibTraverse.notNull
        (← XRTLibTraverse.optionalSub root "idle" dcfg.idle))
      let acquire ← XRTLibTraverse.integer (← XRTLibTraverse.notNull
        (← XRTLibTraverse.optionalSub root "acquire" dcfg.acquire))
      let evict ← XRTLibTraverse.integer (← XRTLibTraverse.notNull
        (← XRTLibTraverse.optionalSub root "evict" dcfg.evict))
      pure (max, min, idle, acquire, evict) :
        Except String (JSValue × JSValue × JSValue × JSValue × JSValue)) with
  | .error e =>
    .error ⟨"Load model pool configuration error. (error = \"" ++ e ++ "\")"⟩
  | .ok (max, min, idle, acquire, evict) => .ok ⟨max, min, idle, acquire, evict⟩

/-- The model transaction configuration value object (constructor
`ModelTransactionConfiguration(type, isolationLevel)`). -/
structure ModelTransactionConfiguration where
  type : JSValue
  isolationLevel : JSValue
deriving Repr

/-- `ModelTransactionConfiguration.prototype.toObject`: note the flattened
external key names. -/
def ModelTransactionConfiguration.toObject (c : ModelTransactionConfiguration) : JSValue :=
  .obj [("transactionType", c.type), ("isolationLevel", c.isolationLevel)]

/-- `ModelTransactionConfiguration.Default`, with the default document `cfg`
passed in place of the `ReadDefaultRawConfiguration()` call. -/
def ModelTransactionConfiguration.Default (cfg : JSValue) :
    Except ModelConfigurationError ModelTransactionConfiguration :=
  match (do
      let root ← XRTLibTraverse.sub cfg "transaction"
      let root ← XRTLibTraverse.notNull root
      let root ← XRTLibTraverse.typeOfObject root
      let type ← XRTLibTraverse.string (← XRTLibTraverse.notNull
        (← XRTLibTraverse.sub root "type"))
      let isolationLevel ← XRTLibTraverse.string (← XRTLibTraverse.notNull
        (← XRTLibTraverse.sub root "isolation-level"))
      pure (type, isolationLevel) : Except String (JSValue × JSValue)) with
  | .error e =>
    .error ⟨"Load default model transaction configuration. (error = \"" ++ e ++ "\")"⟩
  | .ok (type, isolationLevel) => .ok ⟨type, isolationLevel⟩

/-- `ModelTransactionConfiguration.From(cfg)`: loads the default configuration
(the call sits outside the `try` block, so a default-configuration failure
propagates unwrapped), then merges `cfg` over it, reading the hyphenated raw
key `isolation-level`. -/
def ModelTransactionConfiguration.From (doc : JSValue) (cfg : JSValue) :
    Except ModelConfigurationError ModelTransactionConfiguration := do
  let dcfg ← ModelTransactionConfiguration.Default doc
  match (do
      let root ← XRTLibTraverse.notNull cfg
      let root ← XRTLibTraverse.typeOfObject root
      let type ← XRTLibTraverse.string (← XRTLibTraverse.notNull
        (← XRTLibTraverse.optionalSub root "type" dcfg.type))
      let isolationLevel ← XRTLibTraverse.string (← XRTLibTraverse.notNull
        (← XRTLibTraverse.optionalSub root "isolation-level" dcfg.isolationLevel))
      pure (type, isolationLevel) : Except String (JSValue × JSValue)) with
  | .error e =>
    .error ⟨"Load model transaction configuration. (error = \"" ++ e ++ "\")"⟩
  | .ok (type, isolationLevel) => .ok ⟨type, isolationLevel⟩

/-- The model retry configuration value object (constructor
`ModelRetryConfiguration(max)`). -/
structure ModelRetryConfiguration where
  max : JSValue
deriving Repr

/-- `ModelRetryConfiguration.prototype.toObject`. -/
def ModelRetryConfiguration.toObject (c : ModelRetryConfiguration) : JSValue :=
  .obj [("max", c.max)]

/-- `ModelRetryConfiguration.Default`, with the default document `cfg` passed
in place of the `ReadDefaultRawConfiguration()` call. -/
def ModelRetryConfiguration.Default (cfg : JSValue) :
    Except ModelConfigurationError ModelRetryConfiguration :=
  match (do
      let root ← XRTLibTraverse.sub cfg "retry"
      let root ← XRTLibTraverse.notNull root
      let root ← XRTLibTraverse.typeOfObject root
      let max ← XRTLibTraverse.integer (← XRTLibTraverse.notNull
        (← XRTLibTraverse.sub root "max"))
      pure max : Except String JSValue) with
  | .error e =>
    .error ⟨"Load model retry configuration error. (error = \"" ++ e ++ "\")"⟩
  | .ok max => .ok ⟨max⟩

/-- `ModelRetryConfiguration.From(cfg)`: loads the default configuration (the
call sits outside the `try` block, so a default-configuration failure
propagates unwrapped), then merges `cfg` over it. -/
def ModelRetryConfiguration.From (doc : JSValue) (cfg : JSValue) :
    Except ModelConfigurationError ModelRetryConfiguration := do
  let dcfg ← ModelRetryConfiguration.Default doc
  match (do
      let root ← XRTLibTraverse.notNull cfg
      let root ← XRTLibTraverse.typeOfObject root
      let max ← XRTLibTraverse.integer (← XRTLibTraverse.notNull
        (← XRTLibTraverse.optionalSub root "max" dcfg.max))
      pure max : Except String JSValue) with
  | .error e =>
    .error ⟨"Load model retry configuration error. (error = \"" ++ e ++ "\")"⟩
  | .ok max => .ok ⟨max⟩

/-- The aggregate model configuration value object (constructor
`ModelConfiguration(host, ..., operatorsAliases)`); scalar members hold the raw
values, the four group members hold the nested configuration objects. -/
structure ModelConfiguration where
  host : JSValue
  port : JSValue
  username : JSValue
  password : JSValue
  database : JSValue
  dialect : JSValue
  protocol : JSValue
  syncCfg : ModelSyncConfiguration
  logging : JSValue
  omitNull : JSValue
  poolCfg : ModelPoolConfiguration
  transactionCfg : ModelTransactionConfiguration
  retryCfg : ModelRetryConfiguration
  operatorsAliases : JSValue
deriving Repr

/-- `ModelConfiguration.prototype.toObject`: the flat serialized shape handed
to the external client; the transaction group is flattened into the two
top-level keys `transactionType` and `isolationLevel`. -/
def ModelConfiguration.toObject (c : ModelConfiguration) : JSValue :=
  .obj [
    ("host", c.host),
    ("port", c.port),
    ("username", c.username),
    ("password", c.password),
    ("database", c.database),
    ("dialect", c.dialect),
    ("protocol", c.protocol),
    ("sync", c.syncCfg.toObject),
    ("logging", c.logging),
    ("omitNull", c.omitNull),
    ("pool", c.poolCfg.toObject),
    ("transactionType", c.transactionCfg.type),
    ("isolationLevel", c.transactionCfg.isolationLevel),
    ("retry", c.retryCfg.toObject),
    ("operatorsAliases", c.operatorsAliases)]

/-- Tuple of the fourteen values the top-level `try` block of
`ModelConfiguration.Default` / `ModelConfiguration.From` extracts. -/
def ModelRawFields : Type :=
  JSValue × JSValue × JSValue × JSValue × JSValue × JSValue × JSValue ×
  JSValue × JSValue × JSValue × JSValue × JSValue × JSValue × JSValue

/-- `ModelConfiguration.Default`, with the default document `cfg` passed in
place of the `ReadDefaultRawConfiguration()` call.  The four group sub-trees
are validated and then handed to the nested builders' `From` (which re-reads
the same document); the top-level catch re-raises the bare message, without a
wrapping prefix. -/
def ModelConfiguration.Default (cfg : JSValue) :
    Except ModelConfigurationError ModelConfiguration :=
  match (do
      let root ← XRTLibTraverse.notNull cfg
      let root ← XRTLibTraverse.typeOfObject root
      let host ← XRTLibTraverse.string (← XRTLibTraverse.notNull
        (← XRTLibTraverse.sub root "host"))
      let port ← XRTLibTraverse.integer (← XRTLibTraverse.notNull
        (← XRTLibTraverse.sub root "port"))
      let username ← XRTLibTraverse.string (← XRTLibTraverse.sub root "username")
      let password ← XRTLibTraverse.string (← XRTLibTraverse.sub root "password")
      let database ← XRTLibTraverse.string (← XRTLibTraverse.sub root "database")
      let dialect ← XRTLibTraverse.string (← XRTLibTraverse.notNull
        (← XRTLibTraverse.sub root "dialect"))
      let protocol ← XRTLibTraverse.string (← XRTLibTraverse.notNull
        (← XRTLibTraverse.sub root "protocol"))
      let sync ← XRTLibTraverse.typeOfObject (← XRTLibTraverse.notNull
        (← XRTLibTraverse.sub root "sync"))
      let logging ← XRTLibTraverse.boolean (← XRTLibTraverse.notNull
        (← XRTLibTraverse.sub root "logging"))
      let omitNull ← XRTLibTraverse.boolean (← XRTLibTraverse.notNull
        (← XRTLibTraverse.sub root "omit-null"))
      let pool ← XRTLibTraverse.typeOfObject (← XRTLibTraverse.notNull
        (← XRTLibTraverse.sub root "pool"))
      let transaction ← XRTLibTraverse.typeOfObject (← XRTLibTraverse.notNull
        (← XRTLibTraverse.sub root "transaction"))
      let retry ← XRTLibTraverse.typeOfObject (← XRTLibTraverse.notNull
        (← XRTLibTraverse.sub root "retry"))
      let operatorsAliases ← XRTLibTraverse.typeOfObject
        (← XRTLibTraverse.sub root "operators-aliases")
      pure (host, port, username, password, database, dialect, protocol, sync,
        logging, omitNull, pool, transaction, retry, operatorsAliases) :
        Except String ModelRawFields) with
  | .error e => .error ⟨e⟩
  | .ok (host, port, username, password, database, dialect, protocol, sync,
      logging, omitNull, pool, transaction, retry, operatorsAliases) => do
    let syncCfg ← ModelSyncConfiguration.From cfg sync
    let poolCfg ← ModelPoolConfiguration.From cfg pool
    let transactionCfg ← ModelTransactionConfiguration.From cfg transaction
    let retryCfg ← ModelRetryConfiguration.From cfg retry
    pure ⟨host, port, username, password, database, dialect, protocol, syncCfg,
      logging, omitNull, poolCfg, transactionCfg, retryCfg, operatorsAliases⟩

/-- `ModelConfiguration.From(cfg)`: loads the default model configuration (the
call sits outside the `try` block, so a default-configuration failure
propagates unwrapped); scalar fields fall back to the default configuration's
values, while an absent nested group falls back to an empty object and is then
handed to the nested builder's `From`.  The hyphenated raw keys `omit-null`
and `operators-aliases` are read from the user-supplied object. -/
def ModelConfiguration.From (doc : JSValue) (cfg : JSValue) :
    Except ModelConfigurationError ModelConfiguration := do
  let dcfg ← ModelConfiguration.Default doc
  match (do
      let root ← XRTLibTraverse.notNull cfg
      let root ← XRTLibTraverse.typeOfObject root
      let host ← XRTLibTraverse.string (← XRTLibTraverse.notNull
        (← XRTLibTraverse.optionalSub root "host" dcfg.host))
      let port ← XRTLibTraverse.integer (← XRTLibTraverse.notNull
        (← XRTLibTraverse.optionalSub root "port" dcfg.port))
      let username ← XRTLibTraverse.string
        (← XRTLibTraverse.optionalSub root "username" dcfg.username)
      let password ← XRTLibTraverse.string
        (← XRTLibTraverse.optionalSub root "password" dcfg.password)
      let database ← XRTLibTraverse.string
        (← XRTLibTraverse.optionalSub root "database" dcfg.database)
      let dialect ← XRTLibTraverse.string (← XRTLibTraverse.notNull
        (← XRTLibTraverse.optionalSub root "dialect" dcfg.dialect))
      let protocol ← XRTLibTraverse.string (← XRTLibTraverse.notNull
        (← XRTLibTraverse.optionalSub root "protocol" dcfg.protocol))
      let sync ← XRTLibTraverse.typeOfObject (← XRTLibTraverse.notNull
        (← XRTLibTraverse.optionalSub root "sync" (.obj [])))
      let logging ← XRTLibTraverse.boolean (← XRTLibTraverse.notNull
        (← XRTLibTraverse.optionalSub root "logging" dcfg.logging))
      let omitNull ← XRTLibTraverse.boolean (← XRTLibTraverse.notNull
        (← XRTLibTraverse.optionalSub root "omit-null" dcfg.omitNull))
      let pool ← XRTLibTraverse.typeOfObject (← XRTLibTraverse.notNull
        (← XRTLibTraverse.optionalSub root "pool" (.obj [])))
      let transaction ← XRTLibTraverse.typeOfObject (← XRTLibTraverse.notNull
        (← XRTLibTraverse.optionalSub root "transaction" (.obj [])))
      let retry ← XRTLibTraverse.typeOfObject (← XRTLibTraverse.notNull
        (← XRTLibTraverse.optionalSub root "retry" (.obj [])))
      let operatorsAliases ← XRTLibTraverse.typeOfObject
        (← XRTLibTraverse.optionalSub root "operators-aliases" dcfg.operatorsAliases)
      pure (host, port, username, password, database, dialect, protocol, sync,
        logging, omitNull, pool, transaction, retry, operatorsAliases) :
        Except String ModelRawFields) with
  | .error e =>
    .error ⟨"Load model configuration error. (error = \"" ++ e ++ "\")"⟩
  | .ok (host, port, username, password, database, dialect, protocol, sync,
      logging, omitNull, pool, transaction, retry, operatorsAliases) => do
    let syncCfg ← ModelSyncConfiguration.From doc sync
    let transactionCfg ← ModelTransactionConfiguration.From doc transaction
    let poolCfg ← ModelPoolConfiguration.From doc pool
    let retryCfg ← ModelRetryConfiguration.From doc retry
    pure ⟨host, port, username, password, database, dialect, protocol, syncCfg,
      logging, omitNull, poolCfg, transactionCfg, retryCfg, operatorsAliases⟩

/-- The factory error taxonomy of `src/core/factory.js`: a configuration
failure wraps the underlying `ModelConfigurationError`, an authentication
failure carries the authenticate error's message. -/
inductive SequelizeFactoryError where
  | sequelizeFactoryConfigurationError (cause : ModelConfigurationError)
  | sequelizeFactoryAuthenticateError (message : String)
deriving Repr

/-- The external Sequelize client handle, which retains the serialized
configuration it was constructed with. -/
structure Sequelize where
  options : JSValue
deriving Repr

/-- The external actions `create` can perform, in order: constructing the
Sequelize client, and invoking its `authenticate()` handshake. -/
inductive FactoryAction where
  | constructSequelize
  | authenticate
deriving Repr

/-- `SequelizeFactory.prototype.create(cfg, waitForAuthenticate)`, with the
default document `doc` passed in place of the bundled file and the outcome of
the external `sequelize.authenticate()` call supplied as `authOutcome` (the
client and its network are external collaborators).  Returns the settled
result together with the list of external actions performed. -/
def SequelizeFactory.create (doc : JSValue) (authOutcome : Except String Unit)
    (cfg : JSValue) (waitForAuthenticate : Bool) :
    Except SequelizeFactoryError Sequelize × List FactoryAction :=
  match ModelConfiguration.From doc cfg with
  | .error e => (.error (.sequelizeFactoryConfigurationError e), [])
  | .ok modelCfg =>
    let sequelize : Sequelize := ⟨modelCfg.toObject⟩
    if waitForAuthenticate then
      match authOutcome with
      | .error m =>
        (.error (.sequelizeFactoryAuthenticateError m),
         [.constructSequelize, .authenticate])
      | .ok _ => (.ok sequelize, [.constructSequelize, .authenticate])
    else (.ok sequelize, [.constructSequelize])

/-- Follows the spec's words for the aggregate `Default()`: the same two-phase
pattern as the nested builders at the top level (require-and-type-check every
top-level member of the default document), additionally recursing into the
four nested builders' `Default()` to build the sync, pool, transaction and
retry sub-configurations. -/
def ModelConfigurationDefaultSpec (cfg : JSValue) :
    Except ModelConfigurationError ModelConfiguration :=
  match (do
      let root ← XRTLibTraverse.notNull cfg
      let root ← XRTLibTraverse.typeOfObject root
      let host ← XRTLibTraverse.string (← XRTLibTraverse.notNull
        (← XRTLibTraverse.sub root "host"))
      let port ← XRTLibTraverse.integer (← XRTLibTraverse.notNull
        (← XRTLibTraverse.sub root "port"))
      let username ← XRTLibTraverse.string (← XRTLibTraverse.sub root "username")
      let password ← XRTLibTraverse.string (← XRTLibTraverse.sub root "password")
      let database ← XRTLibTraverse.string (← XRTLibTraverse.sub root "database")
      let dialect ← XRTLibTraverse.string (← XRTLibTraverse.notNull
        (← XRTLibTraverse.sub root "dialect"))
      let protocol ← XRTLibTraverse.string (← XRTLibTraverse.notNull
        (← XRTLibTraverse.sub root "protocol"))
      let sync ← XRTLibTraverse.typeOfObject (← XRTLibTraverse.notNull
        (← XRTLibTraverse.sub root "sync"))
      let logging ← XRTLibTraverse.boolean (← XRTLibTraverse.notNull
        (← XRTLibTraverse.sub root "logging"))
      let omitNull ← XRTLibTraverse.boolean (← XRTLibTraverse.notNull
        (← XRTLibTraverse.sub root "omit-null"))
      let pool ← XRTLibTraverse.typeOfObject (← XRTLibTraverse.notNull
        (← XRTLibTraverse.sub root "pool"))
      let transaction ← XRTLibTraverse.typeOfObject (← XRTLibTraverse.notNull
        (← XRTLibTraverse.sub root "transaction"))
      let retry ← XRTLibTraverse.typeOfObject (← XRTLibTraverse.notNull
        (← XRTLibTraverse.sub root "retry"))
      let operatorsAliases ← XRTLibTraverse.typeOfObject
        (← XRTLibTraverse.sub root "operators-aliases")
      pure (host, port, username, password, database, dialect, protocol, sync,
        logging, omitNull, pool, transaction, retry, operatorsAliases) :
        Except String ModelRawFields) with
  | .error e => .error ⟨e⟩
  | .ok (host, port, username, password, database, dialect, protocol, _sync,
      logging, omitNull, _pool, _transaction, _retry, operatorsAliases) => do
    let syncCfg ← ModelSyncConfiguration.Default cfg
    let poolCfg ← ModelPoolConfiguration.Default cfg
    let transactionCfg ← ModelTransactionConfiguration.Default cfg
    let retryCfg ← ModelRetryConfiguration.Default cfg
    pure ⟨host, port, username, password, database, dialect, protocol, syncCfg,
      logging, omitNull, poolCfg, transactionCfg, retryCfg, operatorsAliases⟩

/-- A raw configuration that explicitly supplies every field at every nesting
level (using the raw key names the code reads, hyphenated ones included). -/
def fullySpecifiedRaw : JSValue :=
  .obj [
    ("host", .str "db.example.com"),
    ("port", .int 5432),
    ("username", .str "admin"),
    ("password", .str "secret"),
    ("database", .str "main"),
    ("dialect", .str "postgres"),
    ("protocol", .str "tcp"),
    ("sync", .obj [("force", .bool true), ("alter", .bool true)]),
    ("logging", .bool true),
    ("omit-null", .bool true),
    ("pool", .obj [("max", .int 10), ("min", .int 2), ("idle", .int 5000),
      ("acquire", .int 30000), ("evict", .int 2000)]),
    ("transaction", .obj [("type", .str "IMMEDIATE"),
      ("isolation-level", .str "SERIALIZABLE")]),
    ("retry", .obj [("max", .int 2)]),
    ("operators-aliases", .null)]

/-- C1: for every nesting level (Sync, Pool, Transaction, Retry, and the
aggregate ModelConfiguration), calling `From` with an empty object produces a
configuration value-equal to the one produced by `Default()` at that level. -/
theorem from_empty_equals_default_at_every_level :
    ModelSyncConfiguration.From defaultRawConfiguration (.obj [])
      = ModelSyncConfiguration.Default defaultRawConfiguration
    ∧ ModelPoolConfiguration.From defaultRawConfiguration (.obj [])
      = ModelPoolConfiguration.Default defaultRawConfiguration
    ∧ ModelTransactionConfiguration.From defaultRawConfiguration (.obj [])
      = ModelTransactionConfiguration.Default defaultRawConfiguration
    ∧ ModelRetryConfiguration.From defaultRawConfiguration (.obj [])
      = ModelRetryConfiguration.Default defaultRawConfiguration
    ∧ ModelConfiguration.From defaultRawConfiguration (.obj [])
      = ModelConfiguration.Default defaultRawConfiguration :=
  ⟨rfl, rfl, rfl, rfl, rfl⟩

/-- C2: `ModelConfiguration.toObject` produces a flat object keyed by the
external client's expected field names (`host, port, username, password,
database, dialect, protocol, sync, logging, omitNull, pool, transactionType,
isolationLevel, retry, operatorsAliases`); the transaction group is flattened
into the top-level keys `transactionType` and `isolationLevel` (no
`transaction` key remains), while sync, pool and retry are serialized under
their group keys. -/
theorem toObject_flat_external_shape (c : ModelConfiguration) :
    jsKeys c.toObject
      = ["host", "port", "username", "password", "database", "dialect",
         "protocol", "sync", "logging", "omitNull", "pool", "transactionType",
         "isolationLevel", "retry", "operatorsAliases"]
    ∧ jsGet c.toObject "transactionType" = some c.transactionCfg.type
    ∧ jsGet c.toObject "isolationLevel" = some c.transactionCfg.isolationLevel
    ∧ jsGet c.toObject "sync" = some c.syncCfg.toObject
    ∧ jsGet c.toObject "pool" = some c.poolCfg.toObject
    ∧ jsGet c.toObject "retry" = some c.retryCfg.toObject
    ∧ "transaction" ∉ jsKeys c.toObject := by
  refine ⟨rfl, rfl, rfl, rfl, rfl, rfl, ?_⟩
  show "transaction" ∉ ["host", "port", "username", "password", "database",
    "dialect", "protocol", "sync", "logging", "omitNull", "pool",
    "transactionType", "isolationLevel", "retry", "operatorsAliases"]
  decide

/-- C3: the aggregate `ModelConfiguration.Default()` agrees with the spec's
description (two-phase validation of the top-level document, recursing into
the four nested builders' `Default()` for the sync, pool, transaction and
retry sub-configurations) on the bundled default document. -/
theorem default_follows_two_phase_recursive_spec :
    ModelConfiguration.Default defaultRawConfiguration
      = ModelConfigurationDefaultSpec defaultRawConfiguration := rfl

/-- C4 counterexample: `optionalSub` does not substitute the default when the
field is present with value null — the null is returned unchanged — and
consequently `ModelConfiguration.From` rejects `logging: null` instead of
falling back to the default. -/
theorem optionalSub_present_null_not_defaulted :
    XRTLibTraverse.optionalSub (.obj [("logging", .null)]) "logging" (.bool false)
      = .ok .null
    ∧ XRTLibTraverse.optionalSub (.obj [("logging", .null)]) "logging" (.bool false)
      ≠ .ok (.bool false)
    ∧ isError (ModelConfiguration.From defaultRawConfiguration
        (.obj [("logging", .null)])) = true :=
  ⟨rfl, fun h => JSValue.noConfusion (Except.ok.inj h), rfl⟩

/-- C4 (amended): for every object-shaped input, field name and default value,
the optional-field lookup returns the default exactly when the field is
absent; a present field's value — null included — is returned unchanged. -/
theorem optionalSub_default_only_when_absent (fs : List (String × JSValue))
    (name : String) (dflt : JSValue) :
    (jsLookup fs name = none →
      XRTLibTraverse.optionalSub (.obj fs) name dflt = .ok dflt)
    ∧ ∀ v, jsLookup fs name = some v →
      XRTLibTraverse.optionalSub (.obj fs) name dflt = .ok v := by
  constructor
  · intro h
    simp [XRTLibTraverse.optionalSub, h]
  · intro v h
    simp [XRTLibTraverse.optionalSub, h]

/-- C4 witness: the amended behaviour at concrete inputs — an absent `logging`
field falls back to the default, a present null `logging` field stays null. -/
theorem optionalSub_default_only_when_absent_witness :
    XRTLibTraverse.optionalSub (.obj []) "logging" (.bool false) = .ok (.bool false)
    ∧ XRTLibTraverse.optionalSub (.obj [("logging", .null)]) "logging" (.bool false)
      = .ok .null :=
  ⟨(optionalSub_default_only_when_absent [] "logging" (.bool false)).1 rfl,
   (optionalSub_default_only_when_absent [("logging", JSValue.null)] "logging"
     (.bool false)).2 JSValue.null rfl⟩

/-- C6: `ModelConfiguration.From` succeeds and yields null for a raw
`username: null` (and likewise for `password`, `database` and the
operators-aliases field), but fails with a `ModelConfigurationError` for a raw
`host: null`. -/
theorem nullable_fields_accept_null_host_rejects_null :
    (ModelConfiguration.From defaultRawConfiguration
        (.obj [("username", .null)])).map (fun c => c.username) = .ok .null
    ∧ (ModelConfiguration.From defaultRawConfiguration
        (.obj [("password", .null)])).map (fun c => c.password) = .ok .null
    ∧ (ModelConfiguration.From defaultRawConfiguration
        (.obj [("database", .null)])).map (fun c => c.database) = .ok .null
    ∧ (ModelConfiguration.From defaultRawConfiguration
        (.obj [("operators-aliases", .null)])).map
        (fun c => c.operatorsAliases) = .ok .null
    ∧ isError (ModelConfiguration.From defaultRawConfiguration
        (.obj [("host", .null)])) = true :=
  ⟨rfl, rfl, rfl, rfl, rfl⟩

/-- C9: the raw keys actually read are the hyphenated `omit-null`,
`operators-aliases` and `isolation-level`; a raw object supplying only the
camel-case names `omitNull`, `operatorsAliases` or `isolationLevel` has those
values silently ignored and the defaults used instead. -/
theorem hyphenated_raw_keys_not_camel_case :
    (ModelConfiguration.From defaultRawConfiguration
        (.obj [("omitNull", .bool true)])).map
        (fun c => c.omitNull) = .ok (.bool false)
    ∧ (ModelConfiguration.From defaultRawConfiguration
        (.obj [("omit-null", .bool true)])).map
        (fun c => c.omitNull) = .ok (.bool true)
    ∧ (ModelConfiguration.From defaultRawConfiguration
        (.obj [("operatorsAliases", .obj [("and", .str "$and")])])).map
        (fun c => c.operatorsAliases) = .ok .null
    ∧ (ModelConfiguration.From defaultRawConfiguration
        (.obj [("operators-aliases", .obj [("and", .str "$and")])])).map
        (fun c => c.operatorsAliases) = .ok (.obj [("and", .str "$and")])
    ∧ (ModelTransactionConfiguration.From defaultRawConfiguration
        (.obj [("isolationLevel", .str "SERIALIZABLE")])).map
        (fun c => c.isolationLevel) = .ok (.str "READ_COMMITTED")
    ∧ (ModelTransactionConfiguration.From defaultRawConfiguration
        (.obj [("isolation-level", .str "SERIALIZABLE")])).map
        (fun c => c.isolationLevel) = .ok (.str "SERIALIZABLE") :=
  ⟨rfl, rfl, rfl, rfl, rfl, rfl⟩

/-- C10: for every input that is null or not object-shaped, the aggregate
`ModelConfiguration.From` and each nested builder's `From` fail with a
`ModelConfigurationError` (the builders' result type) rather than returning a
configuration. -/
theorem non_object_raw_rejected_everywhere (v : JSValue)
    (h : isObjectShaped v = false) :
    isError (ModelSyncConfiguration.From defaultRawConfiguration v) = true
    ∧ isError (ModelPoolConfiguration.From defaultRawConfiguration v) = true
    ∧ isError (ModelTransactionConfiguration.From defaultRawConfiguration v) = true
    ∧ isError (ModelRetryConfiguration.From defaultRawConfiguration v) = true
    ∧ isError (ModelConfiguration.From defaultRawConfiguration v) = true := by
  cases v with
  | obj fs => simp [isObjectShaped] at h
  | null => exact ⟨rfl, rfl, rfl, rfl, rfl⟩
  | bool b => exact ⟨rfl, rfl, rfl, rfl, rfl⟩
  | int n => exact ⟨rfl, rfl, rfl, rfl, rfl⟩
  | str s => exact ⟨rfl, rfl, rfl, rfl, rfl⟩

/-- Inversion for a successful `Except` bind. -/
theorem except_bind_ok {ε α β : Type} {x : Except ε α} {f : α → Except ε β}
    {b : β} (h : x >>= f = .ok b) : ∃ a, x = .ok a ∧ f a = .ok b := by
  cases x with
  | error e => exact Except.noConfusion h
  | ok a => exact ⟨a, rfl, h⟩

/-- A successful `notNull` returns its input unchanged. -/
theorem notNull_ok {v w : JSValue} (h : XRTLibTraverse.notNull v = .ok w) :
    w = v := by
  cases v <;> simp [XRTLibTraverse.notNull] at h <;> exact h.symm

/-- A successful `typeOfObject` returns its input unchanged. -/
theorem typeOfObject_ok {v w : JSValue}
    (h : XRTLibTraverse.typeOfObject v = .ok w) : w = v := by
  cases v <;> simp [XRTLibTraverse.typeOfObject] at h <;> exact h.symm

/-- A successful `boolean` check returns its input unchanged. -/
theorem boolean_ok {v w : JSValue} (h : XRTLibTraverse.boolean v = .ok w) :
    w = v := by
  cases v <;> simp [XRTLibTraverse.boolean] at h <;> exact h.symm

/-- A successful `integer` check returns its input unchanged. -/
theorem integer_ok {v w : JSValue} (h : XRTLibTraverse.integer v = .ok w) :
    w = v := by
  cases v <;> simp [XRTLibTraverse.integer] at h <;> exact h.symm

/-- On an object, `optionalSub` returns the looked-up member when present and
the default otherwise. -/
theorem optionalSub_obj (fs : List (String × JSValue)) (name : String)
    (dflt : JSValue) :
    XRTLibTraverse.optionalSub (.obj fs) name dflt
      = .ok ((jsLookup fs name).getD dflt) := by
  cases h : jsLookup fs name with
  | some w => simp [XRTLibTraverse.optionalSub, h]
  | none => simp [XRTLibTraverse.optionalSub, h]

/-- Inversion for the `optionalSub → notNull → integer` chain every integer
field of a builder's `From` goes through. -/
theorem int_field_chain {fs : List (String × JSValue)} {name : String}
    {dflt : JSValue} {β : Type} {k : JSValue → Except String β} {b : β}
    (h : (XRTLibTraverse.optionalSub (.obj fs) name dflt >>= fun l1 =>
          XRTLibTraverse.notNull l1 >>= fun l2 =>
          XRTLibTraverse.integer l2 >>= k) = .ok b) :
    ∃ w, w = (jsLookup fs name).getD dflt ∧ k w = .ok b := by
  obtain ⟨u1, hu1, h⟩ := except_bind_ok h
  obtain ⟨u2, hu2, h⟩ := except_bind_ok h
  obtain ⟨w, hw, h⟩ := except_bind_ok h
  refine ⟨w, ?_, h⟩
  rw [integer_ok hw, notNull_ok hu2]
  rw [optionalSub_obj] at hu1
  exact (Except.ok.inj hu1).symm

/-- Inversion for the `optionalSub → notNull → boolean` chain every boolean
field of a builder's `From` goes through. -/
theorem bool_field_chain {fs : List (String × JSValue)} {name : String}
    {dflt : JSValue} {β : Type} {k : JSValue → Except String β} {b : β}
    (h : (XRTLibTraverse.optionalSub (.obj fs) name dflt >>= fun l1 =>
          XRTLibTraverse.notNull l1 >>= fun l2 =>
          XRTLibTraverse.boolean l2 >>= k) = .ok b) :
    ∃ w, w = (jsLookup fs name).getD dflt ∧ k w = .ok b := by
  obtain ⟨u1, hu1, h⟩ := except_bind_ok h
  obtain ⟨u2, hu2, h⟩ := except_bind_ok h
  obtain ⟨w, hw, h⟩ := except_bind_ok h
  refine ⟨w, ?_, h⟩
  rw [boolean_ok hw, notNull_ok hu2]
  rw [optionalSub_obj] at hu1
  exact (Except.ok.inj hu1).symm

/-- C5: for every raw pool sub-object and raw sync sub-object accepted by the
nested builders' `From`, each configuration field equals the explicitly
provided raw value when the field is present in the raw object, and equals the
default document's value (pool 5/0/10000/60000/1000, sync false/false) when
the field is omitted. -/
theorem nested_from_roundtrips_fields (fs gs : List (String × JSValue))
    (p : ModelPoolConfiguration) (s : ModelSyncConfiguration)
    (hp : ModelPoolConfiguration.From defaultRawConfiguration (.obj fs) = .ok p)
    (hs : ModelSyncConfiguration.From defaultRawConfiguration (.obj gs) = .ok s) :
    p.max = (jsLookup fs "max").getD (.int 5)
    ∧ p.min = (jsLookup fs "min").getD (.int 0)
    ∧ p.idle = (jsLookup fs "idle").getD (.int 10000)
    ∧ p.acquire = (jsLookup fs "acquire").getD (.int 60000)
    ∧ p.evict = (jsLookup fs "evict").getD (.int 1000)
    ∧ s.force = (jsLookup gs "force").getD (.bool false)
    ∧ s.alter = (jsLookup gs "alter").getD (.bool false) := by
  unfold ModelPoolConfiguration.From at hp
  obtain ⟨dcfg, hd, hp⟩ := except_bind_ok hp
  have hdc : dcfg = (⟨.int 5, .int 0, .int 10000, .int 60000, .int 1000⟩ :
      ModelPoolConfiguration) := by
    have h0 : ModelPoolConfiguration.Default defaultRawConfiguration
        = .ok ⟨.int 5, .int 0, .int 10000, .int 60000, .int 1000⟩ := rfl
    rw [h0] at hd
    exact (Except.ok.inj hd).symm
  subst hdc
  unfold ModelSyncConfiguration.From at hs
  obtain ⟨dsc, hds, hs⟩ := except_bind_ok hs
  have hdsc : dsc = (⟨.bool false, .bool false⟩ : ModelSyncConfiguration) := by
    have h0 : ModelSyncConfiguration.Default defaultRawConfiguration
        = .ok ⟨.bool false, .bool false⟩ := rfl
    rw [h0] at hds
    exact (Except.ok.inj hds).symm
  subst hdsc
  split at hp
  · exact Except.noConfusion hp
  · rename_i maxv minv idlev acquirev evictv heq
    split at hs
    · exact Except.noConfusion hs
    · rename_i forcev alterv heqs
      obtain ⟨r1, hr1, heq⟩ := except_bind_ok heq
      rw [notNull_ok hr1] at heq
      obtain ⟨r2, hr2, heq⟩ := except_bind_ok heq
      rw [typeOfObject_ok hr2] at heq
      obtain ⟨w1, hw1, heq⟩ := int_field_chain heq
      obtain ⟨w2, hw2, heq⟩ := int_field_chain heq
      obtain ⟨w3, hw3, heq⟩ := int_field_chain heq
      obtain ⟨w4, hw4, heq⟩ := int_field_chain heq
      obtain ⟨w5, hw5, heq⟩ := int_field_chain heq
      obtain ⟨t1, ht1, heqs⟩ := except_bind_ok heqs
      rw [notNull_ok ht1] at heqs
      obtain ⟨t2, ht2, heqs⟩ := except_bind_ok heqs
      rw [typeOfObject_ok ht2] at heqs
      obtain ⟨y1, hy1, heqs⟩ := bool_field_chain heqs
      obtain ⟨y2, hy2, heqs⟩ := bool_field_chain heqs
      have hptuple := Except.ok.inj heq
      have hstuple := Except.ok.inj heqs
      obtain ⟨hm1, hm2, hm3, hm4, hm5⟩ :
          w1 = maxv ∧ w2 = minv ∧ w3 = idlev ∧ w4 = acquirev ∧ w5 = evictv := by
        simpa using hptuple
      obtain ⟨hf1, hf2⟩ : y1 = forcev ∧ y2 = alterv := by
        simpa using hstuple
      have hpv := Except.ok.inj hp
      have hsv := Except.ok.inj hs
      subst hpv hsv
      exact ⟨(hm1.symm.trans hw1 : _), (hm2.symm.trans hw2 : _),
        (hm3.symm.trans hw3 : _), (hm4.symm.trans hw4 : _),
        (hm5.symm.trans hw5 : _), (hf1.symm.trans hy1 : _),
        (hf2.symm.trans hy2 : _)⟩

/-- C5 witness: a pool raw providing only `max` and a sync raw providing only
`alter` keep the provided values and default the rest. -/
theorem nested_from_roundtrips_fields_witness :
    (⟨.int 10, .int 0, .int 10000, .int 60000, .int 1000⟩ :
      ModelPoolConfiguration).max = (jsLookup [("max", .int 10)] "max").getD (.int 5)
    ∧ (⟨.int 10, .int 0, .int 10000, .int 60000, .int 1000⟩ :
      ModelPoolConfiguration).min = (jsLookup [("max", .int 10)] "min").getD (.int 0)
    ∧ (⟨.int 10, .int 0, .int 10000, .int 60000, .int 1000⟩ :
      ModelPoolConfiguration).idle = (jsLookup [("max", .int 10)] "idle").getD (.int 10000)
    ∧ (⟨.int 10, .int 0, .int 10000, .int 60000, .int 1000⟩ :
      ModelPoolConfiguration).acquire = (jsLookup [("max", .int 10)] "acquire").getD (.int 60000)
    ∧ (⟨.int 10, .int 0, .int 10000, .int 60000, .int 1000⟩ :
      ModelPoolConfiguration).evict = (jsLookup [("max", .int 10)] "evict").getD (.int 1000)
    ∧ (⟨.bool false, .bool true⟩ : ModelSyncConfiguration).force
      = (jsLookup [("alter", .bool true)] "force").getD (.bool false)
    ∧ (⟨.bool false, .bool true⟩ : ModelSyncConfiguration).alter
      = (jsLookup [("alter", .bool true)] "alter").getD (.bool false) :=
  nested_from_roundtrips_fields [("max", .int 10)] [("alter", .bool true)]
    ⟨.int 10, .int 0, .int 10000, .int 60000, .int 1000⟩
    ⟨.bool false, .bool true⟩ rfl rfl

/-- C7: every builder's `From` first computes `Default()` for fallback values
(the call sits outside the `try` block), so whenever the bundled default
document makes `Default()` fail, `From` fails with the very same configuration
error, regardless of the raw input — even one that supplies every field. -/
theorem from_always_validates_bundled_defaults (doc raw : JSValue)
    (e : ModelConfigurationError) :
    (ModelSyncConfiguration.Default doc = .error e →
      ModelSyncConfiguration.From doc raw = .error e)
    ∧ (ModelPoolConfiguration.Default doc = .error e →
      ModelPoolConfiguration.From doc raw = .error e)
    ∧ (ModelTransactionConfiguration.Default doc = .error e →
      ModelTransactionConfiguration.From doc raw = .error e)
    ∧ (ModelRetryConfiguration.Default doc = .error e →
      ModelRetryConfiguration.From doc raw = .error e)
    ∧ (ModelConfiguration.Default doc = .error e →
      ModelConfiguration.From doc raw = .error e) := by
  refine ⟨?_, ?_, ?_, ?_, ?_⟩ <;> intro h
  · unfold ModelSyncConfiguration.From
    rw [h]
    rfl
  · unfold ModelPoolConfiguration.From
    rw [h]
    rfl
  · unfold ModelTransactionConfiguration.From
    rw [h]
    rfl
  · unfold ModelRetryConfiguration.From
    rw [h]
    rfl
  · unfold ModelConfiguration.From
    rw [h]
    rfl

/-- C7 witness: against an empty default document every builder's `Default()`
fails, and each `From` then fails with the same error even though the raw
input supplies every field explicitly. -/
theorem from_always_validates_bundled_defaults_witness :
    ModelSyncConfiguration.From (.obj []) fullySpecifiedRaw
      = .error ⟨"Load default model sync configuration error. (error = \"Sub path is not existed.\")"⟩
    ∧ ModelPoolConfiguration.From (.obj []) fullySpecifiedRaw
      = .error ⟨"Load default model pool configuration error. (error = \"Sub path is not existed.\")"⟩
    ∧ ModelTransactionConfiguration.From (.obj []) fullySpecifiedRaw
      = .error ⟨"Load default model transaction configuration. (error = \"Sub path is not existed.\")"⟩
    ∧ ModelRetryConfiguration.From (.obj []) fullySpecifiedRaw
      = .error ⟨"Load model retry configuration error. (error = \"Sub path is not existed.\")"⟩
    ∧ ModelConfiguration.From (.obj []) fullySpecifiedRaw
      = .error ⟨"Sub path is not existed."⟩ :=
  ⟨(from_always_validates_bundled_defaults (.obj []) fullySpecifiedRaw
      ⟨"Load default model sync configuration error. (error = \"Sub path is not existed.\")"⟩).1 rfl,
   (from_always_validates_bundled_defaults (.obj []) fullySpecifiedRaw
      ⟨"Load default model pool configuration error. (error = \"Sub path is not existed.\")"⟩).2.1 rfl,
   (from_always_validates_bundled_defaults (.obj []) fullySpecifiedRaw
      ⟨"Load default model transaction configuration. (error = \"Sub path is not existed.\")"⟩).2.2.1 rfl,
   (from_always_validates_bundled_defaults (.obj []) fullySpecifiedRaw
      ⟨"Load model retry configuration error. (error = \"Sub path is not existed.\")"⟩).2.2.2.1 rfl,
   (from_always_validates_bundled_defaults (.obj []) fullySpecifiedRaw
      ⟨"Sub path is not existed."⟩).2.2.2.2 rfl⟩

/-- C8: whenever the raw configuration fails validation, `create` settles with
a configuration-kind factory error (the `ModelConfigurationError` wrapped as a
`SequelizeFactoryConfigurationError`) and performs no external action at all:
no client is constructed and no authenticate call is attempted, whatever the
authentication outcome would have been. -/
theorem create_rejects_invalid_config_before_any_action (doc cfg : JSValue)
    (authOutcome : Except String Unit) (waitForAuthenticate : Bool)
    (e : ModelConfigurationError)
    (h : ModelConfiguration.From doc cfg = .error e) :
    SequelizeFactory.create doc authOutcome cfg waitForAuthenticate
      = (.error (.sequelizeFactoryConfigurationError e), []) := by
  unfold SequelizeFactory.create
  rw [h]

/-- C8 witness: a non-numeric string for `port` makes `create` reject with the
configuration-kind error and an empty action trace, even with authentication
requested and a network that would have failed. -/
theorem create_rejects_invalid_config_witness :
    SequelizeFactory.create defaultRawConfiguration (.error "network unreachable")
      (.obj [("port", .str "not-a-number")]) true
      = (.error (.sequelizeFactoryConfigurationError
          ⟨"Load model configuration error. (error = \"Value type should be integer.\")"⟩), []) :=
  create_rejects_invalid_config_before_any_action defaultRawConfiguration
    (.obj [("port", .str "not-a-number")]) (.error "network unreachable") true
    ⟨"Load model configuration error. (error = \"Value type should be integer.\")"⟩ rfl

/-- C10 witness: the number 5 as raw input is rejected at every level. -/
theorem non_object_raw_rejected_everywhere_witness :
    isError (ModelSyncConfiguration.From defaultRawConfiguration (.int 5)) = true
    ∧ isError (ModelPoolConfiguration.From defaultRawConfiguration (.int 5)) = true
    ∧ isError (ModelTransactionConfiguration.From defaultRawConfiguration (.int 5)) = true
    ∧ isError (ModelRetryConfiguration.From defaultRawConfiguration (.int 5)) = true
    ∧ isError (ModelConfiguration.From defaultRawConfiguration (.int 5)) = true :=
  non_object_raw_rejected_everywhere (.int 5) rfl
